import Mathlib

/-!
Verification of the EM4 storage layer (package `storage`, `em4/internal/storage`)
against its natural-language specification.

The Go source is shallowly embedded: the relational backend is a `DBState`
(list of song rows, list of lyric rows, next generated identifier), each SQL
statement executed by the code is given its relational meaning, and backend
failures (statement errors, begin/rollback/commit errors) are injected
explicitly as `Option Err` parameters, since the code's branching depends on
them.  Go's `error` values are modelled by the inductive `Err`.
-/

namespace EM4

/-- Go `error` values that occur in the storage layer: the driver's zero-rows
sentinel `sql.ErrNoRows`, the package sentinel `storage.ErrSongNotFound`,
`gorm.ErrRecordNotFound`, `pgx.ErrNoRows`, the validation error built by
`fmt.Errorf("no valid fields to update")`, opaque backend failures (indexed by
a code), and errors wrapped with context via `fmt.Errorf("...: %w", err)`. -/
inductive Err where
  | noRows
  | songNotFound
  | gormNotFound
  | pgxNoRows
  | validation (msg : String)
  | backend (code : Nat)
  | wrapped (ctx : String) (e : Err)
  deriving DecidableEq, Repr

/-- The value stored in the `release_date` column: `AddSong` inserts a Go
`time.Time` (modelled as a `Nat`), while the dynamic update writes the raw
string from the sparse patch.  The column value keeps track of which. -/
inductive DateVal where
  | fromTime (t : Nat)
  | fromString (s : String)
  deriving DecidableEq, Repr

/-- Modelled from the spec: the `Song` record of the missing `em4/internal/model`
package, reconstructed from §3 of the spec and from every use in the storage
code and its tests — identifier, group name, song name, link, release date and
the store-assigned `inserted_at` timestamp.  A row of the `songs` table is
scanned field-by-field into this record, so the row and the record coincide. -/
structure Song where
  id : Nat
  group : String
  name : String
  link : String
  releaseDate : DateVal
  insertedAt : Nat
  deriving DecidableEq, Repr

/-- Modelled from the spec: the `Lyrics` record of the missing
`em4/internal/model` package (a row of the `lyrics` table): owning song,
verse number, verse text. -/
structure LyricRow where
  songId : Nat
  verseNumber : Nat
  text : String
  deriving DecidableEq, Repr

/-- Modelled from the spec: the sparse patch `model.SongUpdate` — optional
group, name, release-date string and link (empty string means "leave
unchanged"), plus a mapping from verse number to replacement text.  The Go map
is embedded as an association list; iteration order of a Go map is
unspecified, which is why order-independence is proved separately. -/
structure SongUpdate where
  group : String
  name : String
  releaseDate : String
  link : String
  verses : List (Nat × String)
  deriving DecidableEq, Repr

/-- The relational backend state: the `songs` table, the `lyrics` table, and
the next identifier the store will generate for an inserted song. -/
structure DBState where
  songs : List Song
  lyrics : List LyricRow
  nextId : Nat
  deriving DecidableEq, Repr

/-- The empty database, about to assign identifier 1. -/
def emptyDB : DBState := { songs := [], lyrics := [], nextId := 1 }

/-- `SELECT ... FROM songs WHERE id = $1`: the unique matching row, if any. -/
def findSong (st : DBState) (songID : Nat) : Option Song :=
  st.songs.find? (fun r => r.id = songID)

/-- One positional SQL argument: a string value or the `uint` song/verse id. -/
inductive SqlArg where
  | str (s : String)
  | nat (n : Nat)
  deriving DecidableEq, Repr

/-! ## WithTransaction (part_001 lines 109–129)

`fn` is the unit of work: it transforms the transaction's view of the state
and may fail.  `beginErr`, `rollbackErr` and `commitErr` inject failures of
`db.Begin()`, `tx.Rollback()` and `tx.Commit()`.  The Go code reads

    if err := fn(tx); err != nil {
        err = tx.Rollback()
        if err != nil { return err }
        return err          // err was overwritten: this is nil
    }
    if err := tx.Commit(); err != nil { return err }
    return nil

so when the unit of work fails and the rollback succeeds, the reassigned `err`
is nil and the function returns nil.  The embedding reproduces this faithfully. -/

/-- `(*PostgresStorage).WithTransaction`.  Returns the state visible after the
call together with the returned Go error.  On rollback (successful or not) and
on commit failure the transaction's writes are discarded, so the pre-state is
returned. -/
def withTransaction (st : DBState) (beginErr rollbackErr commitErr : Option Err)
    (fn : DBState → DBState × Option Err) : DBState × Option Err :=
  match beginErr with
  | some e => (st, some e)
  | none =>
    let r := fn st
    match r.2 with
    | some _ =>
      match rollbackErr with
      | some re => (st, some re)
      | none => (st, none)
    | none =>
      match commitErr with
      | some ce => (st, some ce)
      | none => (r.1, none)

/-! ## AddSong (part_001 lines 131–161) -/

/-- Injected backend failures for one `AddSong` call: failure of `db.Begin()`,
`tx.Rollback()`, `tx.Commit()`, of the `INSERT INTO songs ... RETURNING id`
statement, and of the i-th (0-based) `INSERT INTO lyrics` statement. -/
structure AddSongFaults where
  beginErr : Option Err
  rollbackErr : Option Err
  commitErr : Option Err
  insertSongErr : Option Err
  verseErr : Nat → Option Err

/-- A fault schedule on which every backend operation succeeds. -/
def noAddFaults : AddSongFaults :=
  { beginErr := none, rollbackErr := none, commitErr := none,
    insertSongErr := none, verseErr := fun _ => none }

/-- The loop `for i, verse := range verses` of `AddSong`: inserts
`(songID, i+1, verse)` into `lyrics` for each verse, stopping at the first
failing statement. -/
def insertVerses (st : DBState) (songID : Nat) (verses : List String)
    (verseErr : Nat → Option Err) (i : Nat) : DBState × Option Err :=
  match verses with
  | [] => (st, none)
  | v :: rest =>
    match verseErr i with
    | some e => (st, some e)
    | none =>
      insertVerses
        { st with lyrics := st.lyrics ++ [{ songId := songID, verseNumber := i + 1, text := v }] }
        songID rest verseErr (i + 1)

/-- The closure passed to `WithTransaction` by `AddSong`: inserts the song row
(obtaining the generated identifier via `RETURNING id`, written into the
captured variable `songID`), then inserts one lyrics row per verse.  `now` is
the value of `NOW()` stored into `inserted_at`.  Returns the transaction
state, the final value of the captured `songID` (0 if the song insert
failed), and the unit-of-work error. -/
def addSongFn (song : Song) (verses : List String) (f : AddSongFaults) (now : Nat)
    (st : DBState) : DBState × Nat × Option Err :=
  match f.insertSongErr with
  | some e => (st, 0, some e)
  | none =>
    let id := st.nextId
    let st1 : DBState :=
      { st with
        songs := st.songs ++
          [{ id := id, group := song.group, name := song.name, link := song.link,
             releaseDate := song.releaseDate, insertedAt := now }],
        nextId := st.nextId + 1 }
    let r := insertVerses st1 id verses f.verseErr 0
    (r.1, id, r.2)

/-- `(*PostgresStorage).AddSong`.  The Go code captures `songID` mutably in the
closure and returns it whenever `WithTransaction` returns nil; since the
closure is deterministic, the captured variable's final value is recovered
here by evaluating the same closure once more on the same initial state. -/
def addSong (st : DBState) (song : Song) (verses : List String) (f : AddSongFaults)
    (now : Nat) : DBState × Nat × Option Err :=
  let captured := (addSongFn song verses f now st).2.1
  let r := withTransaction st f.beginErr f.rollbackErr f.commitErr
    (fun s => let x := addSongFn song verses f now s; (x.1, x.2.2))
  match r.2 with
  | some e => (r.1, 0, some e)
  | none => (r.1, captured, none)

/-! ## GetSong / DeleteSong (part_001 lines 163–202) -/

/-- `(*PostgresStorage).GetSong`.  `queryErr` injects a backend failure of the
`SELECT`; when it is absent, the driver's `Scan` yields `sql.ErrNoRows` on zero
matching rows.  The code maps `sql.ErrNoRows` to `storage.ErrSongNotFound` and
returns nil for the record; any other error is propagated as-is with a nil
record; on success the scanned record is returned. -/
def getSong (st : DBState) (songID : Nat) (queryErr : Option Nat) :
    Option Song × Option Err :=
  let scanErr : Option Err :=
    match queryErr with
    | some c => some (Err.backend c)
    | none => if (findSong st songID).isSome then none else some Err.noRows
  match scanErr with
  | some Err.noRows => (none, some Err.songNotFound)
  | some e => (none, some e)
  | none => (findSong st songID, none)

/-- `(*PostgresStorage).DeleteSong`.  `execErr` injects a backend failure of
the `DELETE` statement (in which case nothing is deleted).  Otherwise the
statement removes every matching row; the code then inspects
`result.RowsAffected()` and returns `storage.ErrSongNotFound` when it is 0. -/
def deleteSong (st : DBState) (songID : Nat) (execErr : Option Nat) :
    DBState × Option Err :=
  match execErr with
  | some c => (st, some (Err.backend c))
  | none =>
    let affected := (st.songs.filter (fun r => r.id = songID)).length
    let st1 : DBState := { st with songs := st.songs.filter (fun r => ¬ r.id = songID) }
    if affected = 0 then (st1, some Err.songNotFound) else (st1, none)

/-! ## The other two backend strategies (part_000 / part_001 lines 97–106) -/

/-- The zero value of `model.Song`: what gorm's `First` leaves in `song` when
it finds nothing (the method still returns the pointer `&song`). -/
def zeroSong : Song :=
  { id := 0, group := "", name := "", link := "", releaseDate := DateVal.fromTime 0,
    insertedAt := 0 }

/-- `(*ORMPostgresStorage).GetSong`: `s.db.First(&song, songID)` looks up the
row whose primary key equals `songID`; on zero rows gorm returns its own
sentinel `gorm.ErrRecordNotFound` and the method returns the (zero-valued)
record pointer alongside it — it never returns a nil record. -/
def ormGetSong (st : DBState) (songID : Nat) (queryErr : Option Nat) :
    Song × Option Err :=
  match queryErr with
  | some c => (zeroSong, some (Err.backend c))
  | none =>
    match findSong st songID with
    | some s => (s, none)
    | none => (zeroSong, some Err.gormNotFound)

/-- `(*PGXStorage).GetSong`: `SELECT id FROM songs WHERE id = $1` scanned back
into the argument `songID` itself; on zero rows pgx's `Scan` returns
`pgx.ErrNoRows` and leaves `songID` unchanged.  Only the identifier is
returned, never the record. -/
def pgxGetSong (st : DBState) (songID : Nat) (queryErr : Option Nat) :
    Nat × Option Err :=
  match queryErr with
  | some c => (songID, some (Err.backend c))
  | none =>
    match findSong st songID with
    | some s => (s.id, none)
    | none => (songID, some Err.pgxNoRows)

/-! ## buildUpdateSongQuery (part_001 lines 228–266) -/

/-- `(*PostgresStorage).buildUpdateSongQuery`.  Examines group, name,
release-date, link in that order; for each non-empty field appends
`<column> = $<argIndex>, ` (via `fmt.Sprintf`) and the value; if none was
appended returns the error `no valid fields to update`; otherwise drops the
trailing `", "` (Go: `query[:len(query)-2]`, two ASCII bytes) and appends
`" WHERE id = $<argIndex> RETURNING id"` with the song identifier as the last
argument. -/
def buildUpdateSongQuery (songID : Nat) (u : SongUpdate) :
    Except Err (String × List SqlArg) :=
  let query := "UPDATE songs SET "
  let args : List SqlArg := []
  let argIndex := 1
  let s1 :=
    if u.group ≠ "" then
      (query ++ "group_name = $" ++ toString argIndex ++ ", ",
       args ++ [SqlArg.str u.group], argIndex + 1, true)
    else (query, args, argIndex, false)
  let s2 :=
    if u.name ≠ "" then
      (s1.1 ++ "name = $" ++ toString s1.2.2.1 ++ ", ",
       s1.2.1 ++ [SqlArg.str u.name], s1.2.2.1 + 1, true)
    else s1
  let s3 :=
    if u.releaseDate ≠ "" then
      (s2.1 ++ "release_date = $" ++ toString s2.2.2.1 ++ ", ",
       s2.2.1 ++ [SqlArg.str u.releaseDate], s2.2.2.1 + 1, true)
    else s2
  let s4 :=
    if u.link ≠ "" then
      (s3.1 ++ "link = $" ++ toString s3.2.2.1 ++ ", ",
       s3.2.1 ++ [SqlArg.str u.link], s3.2.2.1 + 1, true)
    else s3
  if s4.2.2.2 = false then
    Except.error (Err.validation "no valid fields to update")
  else
    Except.ok
      (s4.1.dropRight 2 ++ " WHERE id = $" ++ toString s4.2.2.1 ++ " RETURNING id",
       s4.2.1 ++ [SqlArg.nat songID])

/-! ## buildUpdateVerseQuery (part_001 lines 268–290) -/

/-- `(*PostgresStorage).buildUpdateVerseQuery`: one statement per entry of the
verse mapping, each `UPDATE lyrics SET text = $1 WHERE song_id = $2 AND
verse_number = $3` with arguments `(text, songID, verseNumber)`. -/
def buildUpdateVerseQuery (songID : Nat) (verses : List (Nat × String)) :
    List (String × List SqlArg) :=
  verses.map (fun p =>
    ("UPDATE lyrics SET text = $1 WHERE song_id = $2 AND verse_number = $3",
     [SqlArg.str p.2, SqlArg.nat songID, SqlArg.nat p.1]))

/-! ## UpdateSong (part_001 lines 204–226) -/

/-- The relational effect of the statement built by `buildUpdateSongQuery`:
each non-empty field of the patch overwrites the corresponding column of the
row(s) whose id matches. -/
def applySongFields (u : SongUpdate) (r : Song) : Song :=
  { r with
    group := if u.group ≠ "" then u.group else r.group,
    name := if u.name ≠ "" then u.name else r.name,
    releaseDate := if u.releaseDate ≠ "" then DateVal.fromString u.releaseDate
                   else r.releaseDate,
    link := if u.link ≠ "" then u.link else r.link }

/-- Executing `UPDATE songs SET ... WHERE id = $n` against the state. -/
def execSongUpdate (st : DBState) (songID : Nat) (u : SongUpdate) : DBState :=
  { st with songs := st.songs.map (fun r => if r.id = songID then applySongFields u r else r) }

/-- Executing one `UPDATE lyrics SET text = $1 WHERE song_id = $2 AND
verse_number = $3` against the state. -/
def execVerseUpdate (st : DBState) (songID verseNumber : Nat) (t : String) : DBState :=
  { st with lyrics := st.lyrics.map (fun r =>
      if r.songId = songID ∧ r.verseNumber = verseNumber then { r with text := t } else r) }

/-- Injected backend failures for one `UpdateSong` call: failure of the
song-level `UPDATE` and of the i-th (0-based, in iteration order) verse
`UPDATE`. -/
structure UpdateFaults where
  songExecErr : Option Err
  verseExecErr : Nat → Option Err

/-- A fault schedule on which every backend operation succeeds. -/
def noUpdateFaults : UpdateFaults :=
  { songExecErr := none, verseExecErr := fun _ => none }

/-- The loop `for _, q := range verseQueries` of `UpdateSong`: executes the
verse statements sequentially (each outside any transaction), stopping at the
first failure, which is returned wrapped as `failed to update verse`. -/
def runVerseUpdates (st : DBState) (songID : Nat) (verses : List (Nat × String))
    (verseErr : Nat → Option Err) (i : Nat) : DBState × Option Err :=
  match verses with
  | [] => (st, none)
  | (n, t) :: rest =>
    match verseErr i with
    | some e => (st, some (Err.wrapped "failed to update verse" e))
    | none => runVerseUpdates (execVerseUpdate st songID n t) songID rest verseErr (i + 1)

/-- `(*PostgresStorage).UpdateSong`.  Builds the song-level query; if the
builder failed and the verse mapping is empty, returns that error.  If a
song-level query was built, executes it (a failure is wrapped as `failed to
update song`).  Then builds and executes the per-verse statements
sequentially. -/
def updateSong (st : DBState) (songID : Nat) (u : SongUpdate) (f : UpdateFaults) :
    DBState × Option Err :=
  match buildUpdateSongQuery songID u with
  | Except.error e =>
    if u.verses.length = 0 then (st, some e)
    else runVerseUpdates st songID u.verses f.verseExecErr 0
  | Except.ok _ =>
    match f.songExecErr with
    | some e => (st, some (Err.wrapped "failed to update song" e))
    | none => runVerseUpdates (execSongUpdate st songID u) songID u.verses f.verseExecErr 0

/-! ## Specification-side helpers for the theorems -/

/-- The (column, value) pairs of the patch that are actually set, in the fixed
order group, name, release-date, link that the builder examines. -/
def setFields (u : SongUpdate) : List (String × String) :=
  ([("group_name", u.group), ("name", u.name), ("release_date", u.releaseDate),
    ("link", u.link)]).filter (fun p => p.2 ≠ "")

/-- `colClauses cols k` renders `c₁ = $k, c₂ = $(k+1), ...`: one assignment
clause per column with consecutive fresh positional parameters. -/
def colClauses : List String → Nat → String
  | [], _ => ""
  | [c], k => c ++ " = $" ++ toString k
  | c :: rest, k => c ++ " = $" ++ toString k ++ ", " ++ colClauses rest (k + 1)

/-- An example song used as concrete input (§8's example scenario). -/
def exampleSong : Song :=
  { id := 0, group := "A", name := "B", link := "http://x",
    releaseDate := DateVal.fromTime 3, insertedAt := 0 }

/-- Fault schedule: only the first `INSERT INTO lyrics` statement fails
(backend error 7); begin, the song insert, rollback and commit all succeed. -/
def verse0Fault : AddSongFaults :=
  { beginErr := none, rollbackErr := none, commitErr := none,
    insertSongErr := none,
    verseErr := fun i => if i = 0 then some (Err.backend 7) else none }

/-- A database holding one song (identifier 1) with two verses, as in §8's
example scenario. -/
def songRow1 : Song :=
  { id := 1, group := "A", name := "B", link := "http://x",
    releaseDate := DateVal.fromTime 3, insertedAt := 5 }

/-- The state after inserting `songRow1` with verses `["v1", "v2"]`. -/
def oneSongDB : DBState :=
  { songs := [songRow1],
    lyrics := [{ songId := 1, verseNumber := 1, text := "v1" },
               { songId := 1, verseNumber := 2, text := "v2" }],
    nextId := 2 }

/-- Written from the spec's words (C9): the three backend-access strategies
implement the same contract — in particular each of them reports the
distinguished not-found condition (`storage.ErrSongNotFound`) when zero rows
match the identifier. -/
def strategiesSameContract : Prop :=
  ∀ st songID, findSong st songID = none →
    ((getSong st songID none).2 = some Err.songNotFound ∧
     (ormGetSong st songID none).2 = some Err.songNotFound ∧
     (pgxGetSong st songID none).2 = some Err.songNotFound)

/-- All four song-level fields of the patch are empty. -/
def allEmpty (u : SongUpdate) : Prop :=
  u.group = "" ∧ u.name = "" ∧ u.releaseDate = "" ∧ u.link = ""

/-- The cumulative relational effect of executing the per-verse update
statements in list order. -/
def applyVerseUpdates (st : DBState) (songID : Nat) (verses : List (Nat × String)) :
    DBState :=
  verses.foldl (fun s p => execVerseUpdate s songID p.1 p.2) st

/-- The state after the song-level phase of `UpdateSong`: the built statement
is executed when the builder succeeded, and skipped (empty `songQuery`) when
it failed. -/
def songPhase (st : DBState) (songID : Nat) (u : SongUpdate) : DBState :=
  match buildUpdateSongQuery songID u with
  | Except.ok _ => execSongUpdate st songID u
  | Except.error _ => st

/-- Fault schedule for `UpdateSong`: only the second (index 1) verse
statement fails, with backend error 4. -/
def verseFailAt1 : UpdateFaults :=
  { songExecErr := none,
    verseExecErr := fun i => if i = 1 then some (Err.backend 4) else none }

/-- Referential integrity of the schema (§6): every lyrics row's `song_id` is
the identifier of some song row (the declared foreign key). -/
def WFState (st : DBState) : Prop :=
  ∀ l ∈ st.lyrics, ∃ s ∈ st.songs, s.id = l.songId

/-! ## Theorems -/

/-- C2.  The claim states `WithTransaction` never reports success when the
unit of work failed: the unit-of-work error is propagated when rollback
succeeds.  Evaluating the embedded code at a failing unit of work (backend
error 3) with a succeeding rollback shows the call returns nil: the Go code
reassigns `err = tx.Rollback()` before `return err`, so the original failure
is silently swallowed — contradicting the spec's propagation policy (§7:
errors are "never silently swallowed"). -/
theorem withTransaction_swallows_unit_failure :
    withTransaction emptyDB none none none
      (fun s => (s, some (Err.backend 3))) = (emptyDB, none) := rfl

/-- C1.  The claim states `AddSong` either creates all rows and returns the
identifier, or creates zero rows and returns an error with no identifier.
Evaluating the embedded code on the empty database with one verse whose
insert fails (and a succeeding rollback) shows `AddSong` creates zero rows
yet returns identifier 1 with a nil error — a consequence of the swallowed
unit-of-work failure in `WithTransaction`, contradicting §8's property (b)
"returns an error". -/
theorem addSong_swallowed_failure :
    addSong emptyDB exampleSong ["v1"] verse0Fault 5 = (emptyDB, 1, none) := rfl

/-- C3.  `buildUpdateSongQuery` examines group, name, release-date, link in
that fixed order, appends one assignment clause with a fresh positional
parameter ($1, $2, ...) and the value for each non-empty field; with zero set
fields it returns the error "no valid fields to update"; otherwise the
trailing separator is trimmed and a `WHERE id = $(k+1)` clause is appended,
where k is the number of set fields, with the song identifier as the final
argument. -/
theorem buildUpdateSongQuery_spec (songID : Nat) (u : SongUpdate) :
    buildUpdateSongQuery songID u =
      if setFields u = [] then Except.error (Err.validation "no valid fields to update")
      else Except.ok
        ("UPDATE songs SET " ++ colClauses ((setFields u).map Prod.fst) 1 ++
           " WHERE id = $" ++ toString ((setFields u).length + 1) ++ " RETURNING id",
         (setFields u).map (fun p => SqlArg.str p.2) ++ [SqlArg.nat songID]) := by
  obtain ⟨g, n, rd, l, vs⟩ := u
  by_cases hg : g = "" <;> by_cases hn : n = "" <;> by_cases hr : rd = "" <;>
    by_cases hl : l = "" <;>
    simp [buildUpdateSongQuery, setFields, colClauses, hg, hn, hr, hl] <;> rfl

/-- C7.  `GetSong` returns the distinguished `ErrSongNotFound` and no record
exactly when zero rows match the identifier; a matching row is returned with
no error; any other backend failure is propagated as-is, also with no
record. -/
theorem getSong_contract (st : DBState) (songID : Nat) :
    (getSong st songID none = (none, some Err.songNotFound) ↔ findSong st songID = none) ∧
    (∀ s, findSong st songID = some s → getSong st songID none = (some s, none)) ∧
    (∀ c, getSong st songID (some c) = (none, some (Err.backend c))) := by
  refine ⟨?_, ?_, fun c => rfl⟩
  · cases h : findSong st songID <;> simp [getSong, h]
  · intro s h
    simp [getSong, h]

/-- Witness for C7: on the one-song database, looking up id 1 returns the
record, looking up the absent id 2 returns `ErrSongNotFound` and no record,
and an injected backend failure is propagated as-is. -/
theorem getSong_contract_witness :
    getSong oneSongDB 1 none = (some songRow1, none) ∧
    getSong oneSongDB 2 none = (none, some Err.songNotFound) ∧
    getSong oneSongDB 1 (some 9) = (none, some (Err.backend 9)) :=
  ⟨(getSong_contract oneSongDB 1).2.1 songRow1 rfl,
   (getSong_contract oneSongDB 2).1.mpr rfl,
   (getSong_contract oneSongDB 1).2.2 9⟩

/-- C8.  `DeleteSong` returns the distinguished `ErrSongNotFound` exactly when
the delete affects zero rows (the affected-row count is inspected after the
delete executes); in that case the table is unchanged and a second delete of
the same identifier also returns `ErrSongNotFound`; any other backend failure
is propagated. -/
theorem deleteSong_contract (st : DBState) (songID : Nat) :
    ((deleteSong st songID none).2 = some Err.songNotFound ↔
      (st.songs.filter (fun r => r.id = songID)).length = 0) ∧
    ((st.songs.filter (fun r => r.id = songID)).length = 0 →
      deleteSong st songID none = (st, some Err.songNotFound) ∧
      (deleteSong (deleteSong st songID none).1 songID none).2 = some Err.songNotFound) ∧
    (∀ c, deleteSong st songID (some c) = (st, some (Err.backend c))) := by
  refine ⟨?_, ?_, fun c => rfl⟩
  · by_cases h : (st.songs.filter (fun r => r.id = songID)).length = 0 <;>
      simp [deleteSong, h]
  · intro h
    have hnil : st.songs.filter (fun r => r.id = songID) = [] :=
      List.length_eq_zero.mp h
    have hall : ∀ r ∈ st.songs, ¬ r.id = songID := by
      intro r hr
      have := List.filter_eq_nil_iff.mp hnil r hr
      simpa using this
    have hself : st.songs.filter (fun r => !decide (r.id = songID)) = st.songs := by
      rw [List.filter_eq_self]
      intro a ha
      simp [hall a ha]
    have h1 : deleteSong st songID none = (st, some Err.songNotFound) := by
      simp [deleteSong, h, hself]
    exact ⟨h1, by rw [h1]; simp [deleteSong, h, hself]⟩

/-- Witness for C8: deleting the absent id 2 from the one-song database
returns `ErrSongNotFound`, leaves the table unchanged, and a second delete of
the same id again returns `ErrSongNotFound`. -/
theorem deleteSong_contract_witness :
    deleteSong oneSongDB 2 none = (oneSongDB, some Err.songNotFound) ∧
    (deleteSong (deleteSong oneSongDB 2 none).1 2 none).2 = some Err.songNotFound :=
  (deleteSong_contract oneSongDB 2).2.1 (by decide)

/-- Counterexample for C9: on the empty database with identifier 1,
`ORMPostgresStorage.GetSong` returns gorm's own `ErrRecordNotFound` (and a
zero-valued record), not the distinguished `ErrSongNotFound`, so the three
strategies do not return equivalent results. -/
theorem getSong_strategies_differ : ¬ strategiesSameContract := by
  intro h
  have h1 := (h emptyDB 1 rfl).2.1
  simp [ormGetSong, findSong, emptyDB] at h1

/-- C9 (amended).  The common core that does hold: all three strategies
report zero matching rows as a (strategy-specific) error, and on success each
returns the stored row's data — `PostgresStorage` and the ORM strategy the
full record, the PGX strategy only the identifier. -/
theorem getSong_strategies_common_core (st : DBState) (songID : Nat) :
    (findSong st songID = none →
      (getSong st songID none).2.isSome ∧
      (ormGetSong st songID none).2.isSome ∧
      (pgxGetSong st songID none).2.isSome) ∧
    (∀ s, findSong st songID = some s →
      getSong st songID none = (some s, none) ∧
      ormGetSong st songID none = (s, none) ∧
      pgxGetSong st songID none = (s.id, none)) := by
  constructor
  · intro h
    simp [getSong, ormGetSong, pgxGetSong, h]
  · intro s h
    simp [getSong, ormGetSong, pgxGetSong, h]

/-- Witness for the amended C9: concrete evaluations on the empty and the
one-song database. -/
theorem getSong_strategies_common_core_witness :
    ((getSong emptyDB 1 none).2.isSome ∧
     (ormGetSong emptyDB 1 none).2.isSome ∧
     (pgxGetSong emptyDB 1 none).2.isSome) ∧
    (getSong oneSongDB 1 none = (some songRow1, none) ∧
     ormGetSong oneSongDB 1 none = (songRow1, none) ∧
     pgxGetSong oneSongDB 1 none = (songRow1.id, none)) :=
  ⟨(getSong_strategies_common_core emptyDB 1).1 rfl,
   (getSong_strategies_common_core oneSongDB 1).2 songRow1 rfl⟩

/-- Helper: with a fault-free schedule the sequential verse loop of
`UpdateSong` succeeds and its cumulative effect is `applyVerseUpdates`. -/
theorem runVerseUpdates_ok (songID : Nat) (verses : List (Nat × String))
    (verseErr : Nat → Option Err) (hf : ∀ j, verseErr j = none) :
    ∀ (st : DBState) (i : Nat),
      runVerseUpdates st songID verses verseErr i =
        (applyVerseUpdates st songID verses, none) := by
  induction verses with
  | nil => intro st i; rfl
  | cons p rest ih =>
    intro st i
    obtain ⟨n, t⟩ := p
    simp only [runVerseUpdates, hf i, applyVerseUpdates, List.foldl_cons]
    exact ih (execVerseUpdate st songID n t) (i + 1)

/-- Helper: verse updates never touch the `songs` table. -/
theorem applyVerseUpdates_songs (songID : Nat) (verses : List (Nat × String)) :
    ∀ st : DBState, (applyVerseUpdates st songID verses).songs = st.songs := by
  induction verses with
  | nil => intro st; rfl
  | cons p rest ih =>
    intro st
    simp only [applyVerseUpdates, List.foldl_cons] at *
    rw [ih (execVerseUpdate st songID p.1 p.2)]
    rfl

/-- C4.  `UpdateSong` with all song-level fields empty and an empty verse
mapping returns the validation error and changes nothing; with all song-level
fields empty and a non-empty verse mapping, the song-level update is skipped
(no validation error surfaces) and only the verse updates run — the `songs`
table is untouched. -/
theorem updateSong_empty_fields (st : DBState) (songID : Nat) (u : SongUpdate)
    (f : UpdateFaults) (h : allEmpty u) :
    (u.verses = [] →
      updateSong st songID u f = (st, some (Err.validation "no valid fields to update"))) ∧
    (u.verses ≠ [] → (∀ j, f.verseExecErr j = none) →
      updateSong st songID u f = (applyVerseUpdates st songID u.verses, none) ∧
      (applyVerseUpdates st songID u.verses).songs = st.songs) := by
  obtain ⟨hg, hn, hr, hl⟩ := h
  have hbuild : buildUpdateSongQuery songID u =
      Except.error (Err.validation "no valid fields to update") := by
    simp [buildUpdateSongQuery, hg, hn, hr, hl]
  constructor
  · intro hv
    simp [updateSong, hbuild, hv]
  · intro hv hfok
    refine ⟨?_, applyVerseUpdates_songs songID u.verses st⟩
    have hlen : ¬ u.verses.length = 0 := by
      simpa [List.length_eq_zero] using hv
    simp [updateSong, hbuild, hlen, runVerseUpdates_ok songID u.verses f.verseExecErr hfok]

/-- Witness for C4: the all-empty patch is rejected with the validation error
and leaves the one-song database unchanged, while the verse-only patch
`{Verses: {2: "new text"}}` succeeds without touching the `songs` table. -/
theorem updateSong_empty_fields_witness :
    updateSong oneSongDB 1 ⟨"", "", "", "", []⟩ noUpdateFaults =
      (oneSongDB, some (Err.validation "no valid fields to update")) ∧
    (updateSong oneSongDB 1 ⟨"", "", "", "", [(2, "new text")]⟩ noUpdateFaults =
      (applyVerseUpdates oneSongDB 1 [(2, "new text")], none) ∧
     (applyVerseUpdates oneSongDB 1 [(2, "new text")]).songs = oneSongDB.songs) :=
  ⟨(updateSong_empty_fields oneSongDB 1 _ noUpdateFaults ⟨rfl, rfl, rfl, rfl⟩).1 rfl,
   (updateSong_empty_fields oneSongDB 1 _ noUpdateFaults ⟨rfl, rfl, rfl, rfl⟩).2
     (by simp) (fun j => rfl)⟩

/-- Helper: verse-update statements for distinct verse numbers target
disjoint rows, so they commute. -/
theorem execVerseUpdate_comm (st : DBState) (songID : Nat) (n1 n2 : Nat)
    (t1 t2 : String) (hne : n1 ≠ n2) :
    execVerseUpdate (execVerseUpdate st songID n1 t1) songID n2 t2 =
      execVerseUpdate (execVerseUpdate st songID n2 t2) songID n1 t1 := by
  simp only [execVerseUpdate, List.map_map]
  congr 1
  apply List.map_congr_left
  intro r _
  by_cases h1 : r.songId = songID ∧ r.verseNumber = n1
  · have h2 : ¬(r.songId = songID ∧ r.verseNumber = n2) := by
      rintro ⟨-, hv2⟩
      exact hne (h1.2.symm.trans hv2)
    simp [h1, h2, hne, Ne.symm hne]
  · by_cases h2 : r.songId = songID ∧ r.verseNumber = n2 <;>
      simp [h1, h2, hne, Ne.symm hne]

/-- Helper: with pairwise-distinct verse numbers (a Go map's keys), any
iteration order of the verse updates produces the same final state. -/
theorem applyVerseUpdates_perm (st : DBState) (songID : Nat)
    (vs vs2 : List (Nat × String)) (hperm : vs.Perm vs2)
    (hnodup : (vs.map Prod.fst).Nodup) :
    applyVerseUpdates st songID vs = applyVerseUpdates st songID vs2 := by
  unfold applyVerseUpdates
  apply hperm.foldl_eq'
  intro x hx y hy z
  by_cases hxy : x = y
  · subst hxy; rfl
  · have hk : x.1 ≠ y.1 := by
      intro h
      exact hxy (List.inj_on_of_nodup_map hnodup hx hy h)
    exact execVerseUpdate_comm z songID x.1 y.1 x.2 y.2 hk

/-- C5.  `buildUpdateVerseQuery` emits exactly one statement per (verse
number → text) entry, each targeting the (song identifier, verse number)
pair; executing them with no faults applies exactly those updates, and —
because the targeted pairs are pairwise disjoint when the verse numbers are
distinct — executing them in any iteration order yields the same final
state. -/
theorem verse_updates_order_independent (st : DBState) (songID : Nat)
    (vs vs2 : List (Nat × String)) (hperm : vs.Perm vs2)
    (hnodup : (vs.map Prod.fst).Nodup) :
    (buildUpdateVerseQuery songID vs).length = vs.length ∧
    (∀ q ∈ buildUpdateVerseQuery songID vs, ∃ p ∈ vs,
      q = ("UPDATE lyrics SET text = $1 WHERE song_id = $2 AND verse_number = $3",
           [SqlArg.str p.2, SqlArg.nat songID, SqlArg.nat p.1])) ∧
    runVerseUpdates st songID vs (fun _ => none) 0 =
      (applyVerseUpdates st songID vs, none) ∧
    applyVerseUpdates st songID vs = applyVerseUpdates st songID vs2 := by
  refine ⟨List.length_map _ _, ?_, ?_, applyVerseUpdates_perm st songID vs vs2 hperm hnodup⟩
  · intro q hq
    obtain ⟨p, hp, rfl⟩ := List.mem_map.mp hq
    exact ⟨p, hp, rfl⟩
  · exact runVerseUpdates_ok songID vs (fun _ => none) (fun _ => rfl) st 0

/-- Witness for C5: updating verses 1 and 2 of the one-song database in
either iteration order yields the same state. -/
theorem verse_updates_order_independent_witness :
    applyVerseUpdates oneSongDB 1 [(1, "a"), (2, "b")] =
      applyVerseUpdates oneSongDB 1 [(2, "b"), (1, "a")] :=
  (verse_updates_order_independent oneSongDB 1 [(1, "a"), (2, "b")]
    [(2, "b"), (1, "a")] (by decide) (by decide)).2.2.2

/-- Helper: when the first failing verse statement has index `k`, the loop
applies exactly the first `k` updates and stops with the wrapped error. -/
theorem runVerseUpdates_fail_at (songID : Nat) (verseErr : Nat → Option Err) (e : Err) :
    ∀ (vs : List (Nat × String)) (st : DBState) (i k : Nat),
      (∀ j, j < k → verseErr (i + j) = none) → verseErr (i + k) = some e →
      k < vs.length →
      runVerseUpdates st songID vs verseErr i =
        (applyVerseUpdates st songID (vs.take k),
         some (Err.wrapped "failed to update verse" e)) := by
  intro vs
  induction vs with
  | nil =>
    intro st i k _ _ hk
    simp at hk
  | cons p rest ih =>
    intro st i k hok hfail hk
    obtain ⟨n, t⟩ := p
    cases k with
    | zero =>
      have h0 : verseErr i = some e := by simpa using hfail
      simp [runVerseUpdates, h0, applyVerseUpdates]
    | succ k2 =>
      have h0 : verseErr i = none := by simpa using hok 0 (Nat.succ_pos k2)
      simp only [runVerseUpdates, h0, List.take, applyVerseUpdates, List.foldl_cons]
      exact ih (execVerseUpdate st songID n t) (i + 1) k2
        (fun j hj => by
          have := hok (j + 1) (Nat.succ_lt_succ hj)
          have harith : i + (j + 1) = i + 1 + j := by omega
          rwa [harith] at this)
        (by
          have harith : i + (k2 + 1) = i + 1 + k2 := by omega
          rwa [harith] at hfail)
        (by simpa using hk)

/-- C6.  `UpdateSong` executes verse statements sequentially outside any
transaction: if the k-th verse statement fails, the preceding k updates (and
the song-level phase) remain committed in the final state, and the wrapped
failure is returned to the caller. -/
theorem updateSong_verse_failure_partial (st : DBState) (songID : Nat)
    (u : SongUpdate) (f : UpdateFaults) (e : Err) (k : Nat)
    (hsong : f.songExecErr = none)
    (hok : ∀ j, j < k → f.verseExecErr j = none)
    (hfail : f.verseExecErr k = some e)
    (hk : k < u.verses.length) :
    updateSong st songID u f =
      (applyVerseUpdates (songPhase st songID u) songID (u.verses.take k),
       some (Err.wrapped "failed to update verse" e)) := by
  have hrun := runVerseUpdates_fail_at songID f.verseExecErr e u.verses
  rcases hb : buildUpdateSongQuery songID u with err | q
  · have hvne : ¬ u.verses.length = 0 := by omega
    simp only [updateSong, songPhase, hb, if_neg hvne]
    exact hrun st 0 k (fun j hj => by simpa using hok j hj) (by simpa using hfail) hk
  · simp only [updateSong, songPhase, hb, hsong]
    exact hrun (execSongUpdate st songID u) 0 k (fun j hj => by simpa using hok j hj)
      (by simpa using hfail) hk

/-- Witness for C6: on the one-song database, a patch updating verses 1 and 2
whose second statement fails leaves the first verse update committed and
returns the wrapped failure. -/
theorem updateSong_verse_failure_partial_witness :
    updateSong oneSongDB 1 ⟨"", "", "", "", [(1, "x"), (2, "y")]⟩ verseFailAt1 =
      (applyVerseUpdates (songPhase oneSongDB 1 ⟨"", "", "", "", [(1, "x"), (2, "y")]⟩)
         1 [(1, "x")],
       some (Err.wrapped "failed to update verse" (Err.backend 4))) :=
  updateSong_verse_failure_partial oneSongDB 1 _ verseFailAt1 (Err.backend 4) 1 rfl
    (fun j hj => by
      have hj0 : j = 0 := by omega
      subst hj0; rfl)
    rfl (by decide)

/-- Helper: the builder fails exactly when no song-level field is set. -/
theorem buildUpdateSongQuery_error_iff (songID : Nat) (u : SongUpdate) :
    (∃ e, buildUpdateSongQuery songID u = Except.error e) ↔ setFields u = [] := by
  obtain ⟨g, n, rd, l, vs⟩ := u
  by_cases hg : g = "" <;> by_cases hn : n = "" <;> by_cases hr : rd = "" <;>
    by_cases hl : l = "" <;>
    simp [buildUpdateSongQuery, setFields, hg, hn, hr, hl]

/-- Helper: mapping a function that fixes every member is the identity. -/
theorem list_map_eq_self {α : Type} (l : List α) (f : α → α)
    (h : ∀ x ∈ l, f x = x) : l.map f = l := by
  induction l with
  | nil => rfl
  | cons a t ih =>
    simp only [List.map_cons, List.cons.injEq]
    exact ⟨h a (List.mem_cons_self a t), ih (fun x hx => h x (List.mem_cons_of_mem a hx))⟩

/-- Helper: the song-level `UPDATE` matches zero rows when no song has the
identifier, leaving the state unchanged. -/
theorem execSongUpdate_missing (st : DBState) (songID : Nat) (u : SongUpdate)
    (h : ∀ r ∈ st.songs, ¬ r.id = songID) : execSongUpdate st songID u = st := by
  have hmap := list_map_eq_self st.songs
    (fun r => if r.id = songID then applySongFields u r else r)
    (fun r hr => if_neg (h r hr))
  simp [execSongUpdate, hmap]

/-- Helper: a verse `UPDATE` matches zero rows when no lyrics row belongs to
the identifier, leaving the state unchanged. -/
theorem execVerseUpdate_missing (st : DBState) (songID n : Nat) (t : String)
    (h : ∀ l ∈ st.lyrics, ¬ l.songId = songID) : execVerseUpdate st songID n t = st := by
  have hmap := list_map_eq_self st.lyrics
    (fun r => if r.songId = songID ∧ r.verseNumber = n then { r with text := t } else r)
    (fun r hr => if_neg (fun hc => h r hr hc.1))
  simp [execVerseUpdate, hmap]

/-- Helper: all verse updates for an identifier owning no lyrics rows are
no-ops. -/
theorem applyVerseUpdates_missing (songID : Nat) (vs : List (Nat × String))
    (st : DBState) (h : ∀ l ∈ st.lyrics, ¬ l.songId = songID) :
    applyVerseUpdates st songID vs = st := by
  induction vs with
  | nil => rfl
  | cons p rest ih =>
    show applyVerseUpdates (execVerseUpdate st songID p.1 p.2) songID rest = st
    rw [execVerseUpdate_missing st songID p.1 p.2 h]
    exact ih

/-- C10.  `UpdateSong` never signals the distinguished not-found condition: on
a well-formed state with no song row for the identifier, any non-empty patch
executes statements that match zero rows and `UpdateSong` returns success
(nil error, state unchanged) — neither the song-level nor any verse
statement's affected-row count is ever inspected. -/
theorem updateSong_missing_id_succeeds (st : DBState) (songID : Nat) (u : SongUpdate)
    (f : UpdateFaults) (hwf : WFState st) (hmiss : findSong st songID = none)
    (hnonempty : ¬(setFields u = [] ∧ u.verses = []))
    (hsf : f.songExecErr = none) (hvf : ∀ j, f.verseExecErr j = none) :
    updateSong st songID u f = (st, none) := by
  have hm : st.songs.find? (fun r => r.id = songID) = none := hmiss
  have hnos : ∀ r ∈ st.songs, ¬ r.id = songID := by
    intro r hr
    have := List.find?_eq_none.mp hm r hr
    simpa using this
  have hnol : ∀ l ∈ st.lyrics, ¬ l.songId = songID := by
    intro l hl hc
    obtain ⟨s, hs, hsid⟩ := hwf l hl
    exact hnos s hs (hsid.trans hc)
  rcases hb : buildUpdateSongQuery songID u with err | q
  · have hsf2 : setFields u = [] := (buildUpdateSongQuery_error_iff songID u).mp ⟨err, hb⟩
    have hv : ¬ u.verses = [] := fun hv => hnonempty ⟨hsf2, hv⟩
    have hlen : ¬ u.verses.length = 0 := by simpa [List.length_eq_zero] using hv
    simp only [updateSong, hb, if_neg hlen]
    rw [runVerseUpdates_ok songID u.verses f.verseExecErr hvf st 0,
        applyVerseUpdates_missing songID u.verses st hnol]
  · simp only [updateSong, hb, hsf]
    rw [execSongUpdate_missing st songID u hnos,
        runVerseUpdates_ok songID u.verses f.verseExecErr hvf st 0,
        applyVerseUpdates_missing songID u.verses st hnol]

/-- Witness for C10: updating the absent id 5 of the one-song database with a
non-empty patch (group and one verse set) returns nil and leaves the state
unchanged. -/
theorem updateSong_missing_id_witness :
    updateSong oneSongDB 5 ⟨"X", "", "", "", [(1, "z")]⟩ noUpdateFaults =
      (oneSongDB, none) :=
  updateSong_missing_id_succeeds oneSongDB 5 ⟨"X", "", "", "", [(1, "z")]⟩
    noUpdateFaults (by unfold WFState; decide) rfl (by decide) rfl (fun j => rfl)

end EM4
